import Mathlib

/-!
Verification of the gravity-flyby simulation core (src/script.js).

The JavaScript number type is modelled by the real numbers; the
presentation-only pieces (canvas drawing, trail history, UI text) are
omitted, keeping exactly the physics and control state the claims are
about.
-/

set_option maxHeartbeats 1000000

namespace GravityFlyby

/-- 2-D vector value type, from the Vector2 class (script.js lines 1-18). -/
structure Vector2 where
  x : ℝ
  y : ℝ

noncomputable def Vector2.add (a v : Vector2) : Vector2 := ⟨a.x + v.x, a.y + v.y⟩

noncomputable def Vector2.sub (a v : Vector2) : Vector2 := ⟨a.x - v.x, a.y - v.y⟩

noncomputable def Vector2.mult (a : Vector2) (n : ℝ) : Vector2 := ⟨a.x * n, a.y * n⟩

noncomputable def Vector2.div (a : Vector2) (n : ℝ) : Vector2 := ⟨a.x / n, a.y / n⟩

noncomputable def Vector2.mag (a : Vector2) : ℝ := Real.sqrt (a.x * a.x + a.y * a.y)

/-- normalize, with the explicit zero-magnitude special case of the source. -/
noncomputable def Vector2.normalize (a : Vector2) : Vector2 :=
  let m := a.mag
  if m = 0 then ⟨0, 0⟩ else ⟨a.x / m, a.y / m⟩

noncomputable def Vector2.dist (v1 v2 : Vector2) : ℝ := (v1.sub v2).mag

/-- Fixed attracting body, from the Planet class (constructor order
x, y, radius, gravity, influenceRadius). -/
structure Planet where
  pos : Vector2
  radius : ℝ
  gravity : ℝ
  influenceRadius : ℝ

/-- Craft physics state, from the Ship class; the trail is presentation
data and is omitted. -/
structure Ship where
  pos : Vector2
  vel : Vector2
  acc : Vector2
  radius : ℝ

/-- Ship.update (script.js lines 41-61): reset acceleration, accumulate the
softened-gravity force of each planet within its influence radius, then a
semi-implicit Euler step.  The trail bookkeeping at the end of the source
method does not touch pos, vel or acc and is omitted. -/
noncomputable def Ship.update (s : Ship) (dt : ℝ) (planets : List Planet) : Ship :=
  let acc := planets.foldl (fun (acc : Vector2) planet =>
      let dir := planet.pos.sub s.pos
      let d := dir.mag
      let epsilon : ℝ := 5.0
      if d < planet.influenceRadius then
        acc.add (dir.normalize.mult (planet.gravity / (d + epsilon)))
      else acc) ⟨0, 0⟩
  let vel := s.vel.add (acc.mult dt)
  let pos := s.pos.add (vel.mult dt)
  { s with pos := pos, vel := vel, acc := acc }

/-- Throwaway simulation state of the prediction loop in drawTrajectory
(simPos, simVel). -/
structure SimState where
  simPos : Vector2
  simVel : Vector2

/-- One iteration of the prediction loop body in Game.drawTrajectory
(script.js lines 397-410): same force accumulation and same integration
order as Ship.update, written at its own code site. -/
noncomputable def predictStep (planets : List Planet) (simDt : ℝ) (st : SimState) : SimState :=
  let simAcc := planets.foldl (fun (simAcc : Vector2) planet =>
      let dir := planet.pos.sub st.simPos
      let d := dir.mag
      let epsilon : ℝ := 5.0
      if d < planet.influenceRadius then
        simAcc.add (dir.normalize.mult (planet.gravity / (d + epsilon)))
      else simAcc) ⟨0, 0⟩
  let simVel := st.simVel.add (simAcc.mult simDt)
  let simPos := st.simPos.add (simVel.mult simDt)
  ⟨simPos, simVel⟩

/-- The prediction loop of drawTrajectory, collecting the position emitted
by ctx.lineTo after each step.  The future-collision visual cue at the end
of each iteration (script.js lines 414-417) scans for the first planet with
dist(simPos, p.pos) < p.radius and then breaks out of that inner scan only:
it is bound here and has no effect on the produced sequence, exactly as in
the source. -/
noncomputable def predictList (planets : List Planet) (simDt : ℝ) : SimState → Nat → List Vector2
  | _, 0 => []
  | st, Nat.succ n =>
    let st2 := predictStep planets simDt st
    let _cue := List.find? (fun p => decide (Vector2.dist st2.simPos p.pos < p.radius)) planets
    st2.simPos :: predictList planets simDt st2 n

/-- Spec-side sum of a list of vectors (used to state the force field as a
sum over bodies). -/
noncomputable def sumVec : List Vector2 → Vector2
  | [] => ⟨0, 0⟩
  | v :: vs => v.add (sumVec vs)

/-- Per-body softened gravity contribution, as the spec states it: zero at
or beyond the influence radius, normalize(dir) * gravity / (d + 5.0) below
it. -/
noncomputable def gravContrib (pos : Vector2) (planet : Planet) : Vector2 :=
  if (planet.pos.sub pos).mag < planet.influenceRadius then
    (planet.pos.sub pos).normalize.mult (planet.gravity / ((planet.pos.sub pos).mag + 5.0))
  else ⟨0, 0⟩

/-- Mission lifecycle, from the GAME_STATE constant. -/
inductive GameState
  | IDLE
  | FLYING
  | ENDED
deriving DecidableEq

/-- Final reported outcome of an evaluation: CONTINUE when no terminal
message is shown, otherwise the message last written by gameWin or
gameLoss (COURSE CLEAR, CRASHED, LOST IN SPACE). -/
inductive Outcome
  | CONTINUE
  | GOAL_REACHED
  | COLLISION
  | OUT_OF_BOUNDS
deriving DecidableEq

/-- Target region, from the Goal class (pulse is presentation-only). -/
structure Goal where
  pos : Vector2
  radius : ℝ

/-- The Game object: entities, play-area size (canvas width and height),
mission state, last reported outcome, drag-input state and frame counter.
Canvas, DOM and drawing fields are omitted. -/
structure Game where
  ship : Ship
  planets : List Planet
  goal : Goal
  width : ℝ
  height : ℝ
  state : GameState
  outcome : Outcome
  isDragging : Bool
  dragStart : Vector2
  dragCurrent : Vector2
  frameCount : Nat

/-- gameWin (script.js lines 344-355): sets ENDED and the win message. -/
noncomputable def gameWin (g : Game) : Game :=
  { g with state := GameState.ENDED, outcome := Outcome.GOAL_REACHED }

/-- gameLoss (script.js lines 357-362): sets ENDED and the loss message. -/
noncomputable def gameLoss (g : Game) (msg : Outcome) : Game :=
  { g with state := GameState.ENDED, outcome := msg }

/-- Body of the planet loop of checkCollisions: a hit calls gameLoss with
the CRASHED message; there is no early return, the loop continues. -/
noncomputable def planetHitStep (gc : Game) (p : Planet) : Game :=
  if Vector2.dist gc.ship.pos p.pos < p.radius + gc.ship.radius then
    gameLoss gc Outcome.COLLISION
  else gc

/-- checkCollisions (script.js lines 323-342): goal test, then the planet
loop, then the out-of-bounds test with margin m = 0.  None of the three
tests returns early, so a later hit overwrites the message of an earlier
one. -/
noncomputable def checkCollisions (g : Game) : Game :=
  let g1 := if Vector2.dist g.ship.pos g.goal.pos < g.goal.radius + g.ship.radius then
      gameWin g
    else g
  let g2 := g.planets.foldl planetHitStep g1
  let m : ℝ := 0
  if g2.ship.pos.x < -m ∨ g2.ship.pos.x > g2.width + m ∨
      g2.ship.pos.y < -m ∨ g2.ship.pos.y > g2.height + m then
    gameLoss g2 Outcome.OUT_OF_BOUNDS
  else g2

/-- Game.update (script.js lines 312-321): increments frameCount, and only
while FLYING steps the ship with the 20x time scale and evaluates
collisions. -/
noncomputable def Game.update (g : Game) (dt : ℝ) : Game :=
  let g1 := { g with frameCount := g.frameCount + 1 }
  if g1.state = GameState.FLYING then
    checkCollisions { g1 with ship := Ship.update g1.ship (dt * 20) g1.planets }
  else g1

/-- onMouseDown (script.js lines 286-293): rejected unless IDLE. -/
noncomputable def onMouseDown (g : Game) (pos : Vector2) : Game :=
  if g.state ≠ GameState.IDLE then g
  else { g with isDragging := true, dragStart := pos, dragCurrent := pos }

/-- onMouseMove (script.js lines 295-298). -/
noncomputable def onMouseMove (g : Game) (pos : Vector2) : Game :=
  if g.isDragging = false then g
  else { g with dragCurrent := pos }

/-- onMouseUp (script.js lines 300-310): gated only by isDragging; sets the
launch velocity from the drag vector and transitions to FLYING. -/
noncomputable def onMouseUp (g : Game) : Game :=
  if g.isDragging = false then g
  else
    let dragVector := g.dragStart.sub g.dragCurrent
    let power : ℝ := 3.0
    let launchVel := dragVector.mult (0.1 * power)
    { g with isDragging := false,
             ship := { g.ship with vel := launchVel },
             state := GameState.FLYING }

/-- Level geometry produced by one entry of the levels table. -/
structure LevelConfig where
  ship : Vector2
  goalPos : Vector2
  goalR : ℝ
  planets : List Planet

/-- The levels table (script.js lines 215-240). -/
noncomputable def levels (n : Nat) (w h : ℝ) : Option LevelConfig :=
  match n with
  | 1 => some { ship := ⟨100, h - 100⟩, goalPos := ⟨w - 100, 100⟩, goalR := 30,
                planets := [⟨⟨w / 2, h / 2⟩, 40, 5000, 300⟩] }
  | 2 => some { ship := ⟨100, h / 2⟩, goalPos := ⟨w - 100, h / 2⟩, goalR := 30,
                planets := [⟨⟨w / 3, h / 2 - 150⟩, 35, 4000, 250⟩,
                            ⟨⟨2 * w / 3, h / 2 + 150⟩, 35, 4000, 250⟩] }
  | 3 => some { ship := ⟨100, h / 2⟩, goalPos := ⟨w - 100, h / 2⟩, goalR := 25,
                planets := [⟨⟨w / 2, h / 2⟩, 60, 8000, 400⟩,
                            ⟨⟨w - 200, h / 2 - 150⟩, 20, 2000, 150⟩,
                            ⟨⟨w - 200, h / 2 + 150⟩, 20, 2000, 150⟩] }
  | _ => none

/-- The scene-installing tail of initLevel (script.js lines 271-283): state
back to IDLE, message hidden, fresh Ship at the config start, planets and
goal taken from the config verbatim.  No field of the config is inspected
or validated. -/
noncomputable def applyConfig (g : Game) (config : LevelConfig) : Game :=
  { g with state := GameState.IDLE,
           outcome := Outcome.CONTINUE,
           ship := { pos := config.ship, vel := ⟨0, 0⟩, acc := ⟨0, 0⟩, radius := 8 },
           planets := config.planets,
           goal := { pos := config.goalPos, radius := config.goalR } }

/-- initLevel (script.js lines 263-284): unknown level numbers fall back to
level 1, then the chosen config is installed. -/
noncomputable def initLevel (g : Game) (levelNum : Nat) : Game :=
  match levels levelNum g.width g.height with
  | some config => applyConfig g config
  | none =>
    match levels 1 g.width g.height with
    | some config => applyConfig g config
    | none => g

/-- The position sequence drawn by Game.drawTrajectory (script.js lines
379-418): launch velocity from the drag vector with power 3.0 and scaling
0.1, then 100 prediction steps with simDt = 1. -/
noncomputable def drawTrajectoryPositions (g : Game) : List Vector2 :=
  let dragVector := g.dragStart.sub g.dragCurrent
  let power : ℝ := 3.0
  let launchVel := dragVector.mult (0.1 * power)
  predictList g.planets 1 ⟨g.ship.pos, launchVel⟩ 100

/-- Reachability invariant of the input handling: a drag can only be in
progress while IDLE (mousedown rejects other states and mouseup clears the
flag). -/
def dragInv (g : Game) : Prop := g.state ≠ GameState.IDLE → g.isDragging = false

/-- A game with the default 800 x 600 play area, a craft of radius 8 at
rest and mission state FLYING, used for concrete evaluations. -/
noncomputable def mkTestGame (shipPos goalPos : Vector2) (goalR : ℝ)
    (planets : List Planet) : Game :=
  { ship := { pos := shipPos, vel := ⟨0, 0⟩, acc := ⟨0, 0⟩, radius := 8 },
    planets := planets,
    goal := { pos := goalPos, radius := goalR },
    width := 800, height := 600,
    state := GameState.FLYING, outcome := Outcome.CONTINUE,
    isDragging := false, dragStart := ⟨0, 0⟩, dragCurrent := ⟨0, 0⟩,
    frameCount := 0 }

/-- Craft at rest at the origin (concrete integration test). -/
noncomputable def shipC4 : Ship := ⟨⟨0, 0⟩, ⟨0, 0⟩, ⟨0, 0⟩, 8⟩

/-- Planet 5 units above the origin with gravity 100 and influence radius
100: at the origin it produces acceleration (0, -10). -/
noncomputable def planetC4 : Planet := ⟨⟨0, -5⟩, 1, 100, 100⟩

/-- Planet co-located with goal and craft (both thresholds hit at once). -/
noncomputable def p2x : Planet := ⟨⟨500, 100⟩, 40, 5000, 300⟩

/-- Craft, goal and planet all at (500,100): goal-reached and
planet-collision thresholds hold simultaneously. -/
noncomputable def g2x : Game := mkTestGame ⟨500, 100⟩ ⟨500, 100⟩ 30 [p2x]

/-- Craft at distance 37 from the goal centre (500,100). -/
noncomputable def g5a : Game := mkTestGame ⟨537, 100⟩ ⟨500, 100⟩ 30 []

/-- Craft at distance 36 from the goal centre (500,100). -/
noncomputable def g5b : Game := mkTestGame ⟨536, 100⟩ ⟨500, 100⟩ 30 []

/-- Craft at distance 38 from the goal centre (500,100). -/
noncomputable def g5c : Game := mkTestGame ⟨538, 100⟩ ⟨500, 100⟩ 30 []

/-- Craft exactly on the right boundary x = width = 800, far from the
goal. -/
noncomputable def g7a : Game := mkTestGame ⟨800, 300⟩ ⟨800, 1000⟩ 30 []

/-- Craft just past the right boundary, at x = 800.001, far from the
goal. -/
noncomputable def g7b : Game := mkTestGame ⟨800.001, 300⟩ ⟨800.001, 1000⟩ 30 []

/-- An ENDED game with no drag in progress (state-machine witness). -/
noncomputable def gW8 : Game :=
  { mkTestGame ⟨100, 100⟩ ⟨700, 100⟩ 30 [] with state := GameState.ENDED }

/-- A body whose influence radius (30) is well below its distance (100)
from the origin. -/
noncomputable def bFar : Planet := ⟨⟨100, 0⟩, 1, 50, 30⟩

/-- A non-physical level configuration: negative body radius, negative
gravity, negative influence radius, negative goal radius. -/
noncomputable def badPlanet : Planet := ⟨⟨100, 100⟩, -1, -50, -5⟩

noncomputable def badConfig : LevelConfig :=
  { ship := ⟨0, 0⟩, goalPos := ⟨10, 10⟩, goalR := -3, planets := [badPlanet] }

/-- A neutral game to install configurations into. -/
noncomputable def gBase : Game := mkTestGame ⟨0, 0⟩ ⟨10, 10⟩ 30 []

/-- The level-1 configuration at the 800 x 600 play area, spelled out. -/
noncomputable def cfg1 : LevelConfig :=
  { ship := ⟨100, 500⟩, goalPos := ⟨700, 100⟩, goalR := 30,
    planets := [⟨⟨400, 300⟩, 40, 5000, 300⟩] }

/- ------------------------------------------------------------------ -/
/- Lemmas.                                                            -/
/- ------------------------------------------------------------------ -/

lemma Vector2.add_zero_right (v : Vector2) : v.add ⟨0, 0⟩ = v := by
  simp [Vector2.add]

lemma Vector2.add_zero_left (v : Vector2) : Vector2.add ⟨0, 0⟩ v = v := by
  simp [Vector2.add]

lemma Vector2.add_assoc3 (a b c : Vector2) : (a.add b).add c = a.add (b.add c) := by
  simp [Vector2.add, add_assoc]

/-- Evaluate a magnitude whose square is known. -/
lemma mag_eval (x y r : ℝ) (hr : 0 ≤ r) (h : x * x + y * y = r ^ 2) :
    Vector2.mag ⟨x, y⟩ = r := by
  show Real.sqrt (x * x + y * y) = r
  rw [h, Real.sqrt_sq hr]

/-- Evaluate a distance whose square is known. -/
lemma dist_eval (x1 y1 x2 y2 r : ℝ) (hr : 0 ≤ r)
    (h : (x1 - x2) * (x1 - x2) + (y1 - y2) * (y1 - y2) = r ^ 2) :
    Vector2.dist ⟨x1, y1⟩ ⟨x2, y2⟩ = r := by
  show Real.sqrt ((x1 - x2) * (x1 - x2) + (y1 - y2) * (y1 - y2)) = r
  rw [h, Real.sqrt_sq hr]

/-- The physics part of one prediction iteration agrees definitionally with
the physics part of one live Ship.update. -/
lemma predictStep_agree (s : Ship) (dt : ℝ) (planets : List Planet) :
    predictStep planets dt ⟨s.pos, s.vel⟩ =
      ⟨(Ship.update s dt planets).pos, (Ship.update s dt planets).vel⟩ := by
  simp only [predictStep, Ship.update]

/-- The conditional force-accumulation fold of the source equals adding the
sum of the per-body spec contributions. -/
lemma accFold_eq (pos : Vector2) (planets : List Planet) (acc : Vector2) :
    planets.foldl (fun (acc : Vector2) planet =>
        let dir := planet.pos.sub pos
        let d := dir.mag
        let epsilon : ℝ := 5.0
        if d < planet.influenceRadius then
          acc.add (dir.normalize.mult (planet.gravity / (d + epsilon)))
        else acc) acc
      = acc.add (sumVec (planets.map (gravContrib pos))) := by
  induction planets generalizing acc with
  | nil => simp [sumVec, Vector2.add_zero_right]
  | cons p l ih =>
    simp only [List.foldl_cons, List.map_cons, sumVec]
    rw [ih]
    by_cases hc : (p.pos.sub pos).mag < p.influenceRadius
    · rw [if_pos hc]
      rw [gravContrib, if_pos hc, Vector2.add_assoc3]
    · rw [if_neg hc]
      rw [gravContrib, if_neg hc, Vector2.add_zero_left]

/-- Prediction iterates agree with live iterates on the physics state. -/
lemma iterate_agree (s0 : Ship) (dt : ℝ) (planets : List Planet) (n : Nat) :
    (predictStep planets dt)^[n] ⟨s0.pos, s0.vel⟩ =
      ⟨((fun s => Ship.update s dt planets)^[n] s0).pos,
       ((fun s => Ship.update s dt planets)^[n] s0).vel⟩ := by
  induction n generalizing s0 with
  | zero => rfl
  | succ n ih =>
    rw [Function.iterate_succ_apply, Function.iterate_succ_apply,
        predictStep_agree s0 dt planets]
    exact ih (Ship.update s0 dt planets)

/-- The prediction loop emits, in order, the position after each iterate of
predictStep. -/
lemma predictList_eq_map (planets : List Planet) (dt : ℝ) (st : SimState) (N : Nat) :
    predictList planets dt st N =
      (List.range N).map (fun i => ((predictStep planets dt)^[i + 1] st).simPos) := by
  induction N generalizing st with
  | zero => rfl
  | succ n ih =>
    simp only [predictList]
    rw [ih (predictStep planets dt st)]
    rw [List.range_succ_eq_map, List.map_cons, List.map_map]
    refine congrArg₂ List.cons ?_ ?_
    · rw [Nat.zero_add, Function.iterate_one]
    · refine List.map_congr_left (fun i _ => ?_)
      show ((predictStep planets dt)^[i + 1] (predictStep planets dt st)).simPos = _
      rw [← Function.iterate_succ_apply]
      rfl

/-- One planet-loop iteration only ever rewrites state and outcome. -/
lemma planetHitStep_shape (gc : Game) (p : Planet) :
    ∃ s o, planetHitStep gc p = { gc with state := s, outcome := o } := by
  unfold planetHitStep gameLoss
  split
  · exact ⟨_, _, rfl⟩
  · exact ⟨gc.state, gc.outcome, rfl⟩

/-- The whole planet loop only ever rewrites state and outcome. -/
lemma foldPlanets_shape (l : List Planet) (g : Game) :
    ∃ s o, l.foldl planetHitStep g = { g with state := s, outcome := o } := by
  induction l generalizing g with
  | nil => exact ⟨g.state, g.outcome, rfl⟩
  | cons p t ih =>
    obtain ⟨s1, o1, h1⟩ := planetHitStep_shape g p
    obtain ⟨s2, o2, h2⟩ := ih (planetHitStep g p)
    rw [h1] at h2
    exact ⟨s2, o2, by rw [List.foldl_cons, h1]; exact h2.trans rfl⟩

/-- If no planet is hit the planet loop is the identity. -/
lemma foldPlanets_noHit (l : List Planet) (g : Game)
    (h : ∀ p ∈ l, ¬ Vector2.dist g.ship.pos p.pos < p.radius + g.ship.radius) :
    l.foldl planetHitStep g = g := by
  induction l with
  | nil => rfl
  | cons p t ih =>
    rw [List.foldl_cons, planetHitStep, if_neg (h p (List.mem_cons_self p t))]
    exact ih (fun r hr => h r (List.mem_cons_of_mem p hr))

/-- If some planet is hit the planet loop ends with the CRASHED outcome and
state ENDED, whatever state and outcome it started from. -/
lemma foldPlanets_hit (l : List Planet) (g : Game)
    (h : ∃ p ∈ l, Vector2.dist g.ship.pos p.pos < p.radius + g.ship.radius) :
    (l.foldl planetHitStep g).outcome = Outcome.COLLISION ∧
      (l.foldl planetHitStep g).state = GameState.ENDED := by
  induction l generalizing g with
  | nil => simp at h
  | cons p t ih =>
    obtain ⟨q, hq, hqd⟩ := h
    rw [List.foldl_cons]
    by_cases hp : Vector2.dist g.ship.pos p.pos < p.radius + g.ship.radius
    · rw [planetHitStep, if_pos hp]
      by_cases ht : ∃ r ∈ t,
          Vector2.dist (gameLoss g Outcome.COLLISION).ship.pos r.pos <
            r.radius + (gameLoss g Outcome.COLLISION).ship.radius
      · exact ih _ ht
      · rw [foldPlanets_noHit t _ (fun r hr hd => ht ⟨r, hr, hd⟩)]
        exact ⟨rfl, rfl⟩
    · rw [planetHitStep, if_neg hp]
      rcases List.mem_cons.mp hq with hqp | hqt
      · exact absurd (hqp ▸ hqd) hp
      · exact ih g ⟨q, hqt, hqd⟩

/-- checkCollisions only ever rewrites state and outcome; entities, input
state, bounds and frame counter are untouched. -/
lemma checkCollisions_shape (g : Game) :
    ∃ s o, checkCollisions g = { g with state := s, outcome := o } := by
  simp only [checkCollisions]
  have h1 : ∃ s o,
      (if Vector2.dist g.ship.pos g.goal.pos < g.goal.radius + g.ship.radius then
        gameWin g else g) = { g with state := s, outcome := o } := by
    split
    · exact ⟨_, _, rfl⟩
    · exact ⟨g.state, g.outcome, rfl⟩
  obtain ⟨s1, o1, h1⟩ := h1
  rw [h1]
  obtain ⟨s2, o2, h2⟩ := foldPlanets_shape g.planets { g with state := s1, outcome := o1 }
  rw [h2]
  split
  · exact ⟨_, _, rfl⟩
  · exact ⟨s2, o2, rfl⟩

/-- Evaluation of checkCollisions when nothing is hit and the craft is in
bounds: the call changes nothing. -/
lemma checkCollisions_continue (g : Game)
    (hg : ¬ Vector2.dist g.ship.pos g.goal.pos < g.goal.radius + g.ship.radius)
    (hp : ∀ p ∈ g.planets, ¬ Vector2.dist g.ship.pos p.pos < p.radius + g.ship.radius)
    (hb : ¬ (g.ship.pos.x < 0 ∨ g.ship.pos.x > g.width ∨
             g.ship.pos.y < 0 ∨ g.ship.pos.y > g.height)) :
    checkCollisions g = g := by
  simp only [checkCollisions]
  rw [if_neg hg, foldPlanets_noHit _ _ hp, if_neg (by simpa using hb)]

/-- Evaluation of checkCollisions when nothing is hit and the craft is out
of bounds: LOST IN SPACE. -/
lemma checkCollisions_oob (g : Game)
    (hg : ¬ Vector2.dist g.ship.pos g.goal.pos < g.goal.radius + g.ship.radius)
    (hp : ∀ p ∈ g.planets, ¬ Vector2.dist g.ship.pos p.pos < p.radius + g.ship.radius)
    (hb : g.ship.pos.x < 0 ∨ g.ship.pos.x > g.width ∨
          g.ship.pos.y < 0 ∨ g.ship.pos.y > g.height) :
    checkCollisions g = gameLoss g Outcome.OUT_OF_BOUNDS := by
  simp only [checkCollisions]
  rw [if_neg hg, foldPlanets_noHit _ _ hp, if_pos (by simpa using hb)]

/-- Evaluation of checkCollisions when only the goal is hit, in bounds:
COURSE CLEAR. -/
lemma checkCollisions_goal_only (g : Game)
    (hg : Vector2.dist g.ship.pos g.goal.pos < g.goal.radius + g.ship.radius)
    (hp : ∀ p ∈ g.planets, ¬ Vector2.dist g.ship.pos p.pos < p.radius + g.ship.radius)
    (hb : ¬ (g.ship.pos.x < 0 ∨ g.ship.pos.x > g.width ∨
             g.ship.pos.y < 0 ∨ g.ship.pos.y > g.height)) :
    checkCollisions g = gameWin g := by
  simp only [checkCollisions]
  rw [if_pos hg, foldPlanets_noHit g.planets (gameWin g) hp,
      if_neg (by simpa [gameWin] using hb)]

lemma checkCollisions_isDragging (g : Game) :
    (checkCollisions g).isDragging = g.isDragging := by
  obtain ⟨s, o, h⟩ := checkCollisions_shape g
  rw [h]

lemma update_not_flying (g : Game) (dt : ℝ) (h : g.state ≠ GameState.FLYING) :
    Game.update g dt = { g with frameCount := g.frameCount + 1 } := by
  simp only [Game.update]
  rw [if_neg h]

lemma update_isDragging (g : Game) (dt : ℝ) :
    (Game.update g dt).isDragging = g.isDragging := by
  simp only [Game.update]
  split
  · rw [checkCollisions_isDragging]
  · rfl

/-- checkCollisions when the goal threshold and at least one planet
threshold hold with the craft in bounds: the planet loop runs after
gameWin and overwrites the outcome with the CRASHED loss. -/
lemma checkCollisions_goal_and_hit (g : Game)
    (hg : Vector2.dist g.ship.pos g.goal.pos < g.goal.radius + g.ship.radius)
    (hp : ∃ p ∈ g.planets, Vector2.dist g.ship.pos p.pos < p.radius + g.ship.radius)
    (hb : ¬ (g.ship.pos.x < 0 ∨ g.ship.pos.x > g.width ∨
             g.ship.pos.y < 0 ∨ g.ship.pos.y > g.height)) :
    (checkCollisions g).outcome = Outcome.COLLISION ∧
      (checkCollisions g).state = GameState.ENDED := by
  simp only [checkCollisions]
  rw [if_pos hg]
  obtain ⟨s, o, hsh⟩ := foldPlanets_shape g.planets (gameWin g)
  have hfold := foldPlanets_hit g.planets (gameWin g) hp
  rw [hsh] at hfold ⊢
  rw [if_neg (by simpa [gameWin] using hb)]
  exact hfold

/- ------------------------------------------------------------------ -/
/- Claims.                                                            -/
/- ------------------------------------------------------------------ -/

/-- Claim C1: for every launch state, planet list, step count N and step
size dt, the trajectory prediction loop emits exactly the positions of the
first N iterates of the live simulation step with the same dt (physics
state only). -/
theorem claim1_prediction_matches_live (s0 : Ship) (planets : List Planet)
    (N : Nat) (dt : ℝ) :
    predictList planets dt ⟨s0.pos, s0.vel⟩ N =
      (List.range N).map
        (fun i => ((fun s => Ship.update s dt planets)^[i + 1] s0).pos) := by
  rw [predictList_eq_map]
  refine List.map_congr_left (fun i _ => ?_)
  rw [iterate_agree s0 dt planets (i + 1)]

/-- Claim C3: the net acceleration computed by a live step is the sum over
bodies of the per-body contribution (zero at or beyond the influence
radius, normalize(dir) scaled by gravity / (d + 5.0) inside it), a body
outside its influence radius contributes exactly zero, and the prediction
step uses the identical field (same softening constant 5.0). -/
theorem claim3_force_field_sum (s : Ship) (dt : ℝ) (planets : List Planet)
    (st : SimState) :
    (Ship.update s dt planets).acc = sumVec (planets.map (gravContrib s.pos)) ∧
    (∀ planet : Planet, planet.influenceRadius ≤ (planet.pos.sub s.pos).mag →
        gravContrib s.pos planet = ⟨0, 0⟩) ∧
    (predictStep planets dt st).simVel =
      st.simVel.add ((sumVec (planets.map (gravContrib st.simPos))).mult dt) := by
  refine ⟨?_, ?_, ?_⟩
  · simp only [Ship.update]
    rw [accFold_eq, Vector2.add_zero_left]
  · intro planet h
    rw [gravContrib, if_neg (not_lt.mpr h)]
  · simp only [predictStep]
    rw [accFold_eq, Vector2.add_zero_left]

/-- Witness for claim C3 at a concrete far body: distance 100 is at least
the influence radius 30, and the contribution is exactly zero. -/
theorem claim3_witness :
    bFar.influenceRadius ≤ (bFar.pos.sub shipC4.pos).mag ∧
      gravContrib shipC4.pos bFar = ⟨0, 0⟩ := by
  have hm : (bFar.pos.sub shipC4.pos).mag = 100 := by
    show Vector2.mag ⟨100 - 0, 0 - 0⟩ = 100
    exact mag_eval _ _ _ (by norm_num) (by norm_num)
  have hle : bFar.influenceRadius ≤ (bFar.pos.sub shipC4.pos).mag := by
    rw [hm]
    show (30 : ℝ) ≤ 100
    norm_num
  exact ⟨hle, (claim3_force_field_sum shipC4 1 [] ⟨⟨0, 0⟩, ⟨0, 0⟩⟩).2.1 bFar hle⟩

/-- Claim C4: one integration step updates the velocity first and then
advances the position with the already-updated velocity; concretely, with
the planet configuration producing acceleration (0,-10), dt = 1 and
initial velocity (0,0), after one step the velocity is (0,-10) and the
position has advanced by (0,-10). -/
theorem claim4_symplectic_euler :
    (∀ (s : Ship) (dt : ℝ) (planets : List Planet),
        (Ship.update s dt planets).vel =
          s.vel.add ((Ship.update s dt planets).acc.mult dt) ∧
        (Ship.update s dt planets).pos =
          s.pos.add ((Ship.update s dt planets).vel.mult dt)) ∧
    (Ship.update shipC4 1 [planetC4]).vel = ⟨0, -10⟩ ∧
    (Ship.update shipC4 1 [planetC4]).pos = ⟨0, -10⟩ := by
  have hmag : (planetC4.pos.sub shipC4.pos).mag = 5 := by
    show Vector2.mag ⟨0 - 0, -5 - 0⟩ = 5
    exact mag_eval _ _ _ (by norm_num) (by norm_num)
  have hnorm : (planetC4.pos.sub shipC4.pos).normalize = ⟨0, -1⟩ := by
    simp only [Vector2.normalize, hmag]
    rw [if_neg (by norm_num : (5 : ℝ) ≠ 0)]
    show (⟨(0 - 0) / 5, (-5 - 0) / 5⟩ : Vector2) = ⟨0, -1⟩
    norm_num [Vector2.mk.injEq]
  have hup : Ship.update shipC4 1 [planetC4] = ⟨⟨0, -10⟩, ⟨0, -10⟩, ⟨0, -10⟩, 8⟩ := by
    simp only [Ship.update, List.foldl_cons, List.foldl_nil]
    rw [hmag, hnorm]
    rw [if_pos (show (5 : ℝ) < planetC4.influenceRadius by
      show (5 : ℝ) < 100; norm_num)]
    simp only [shipC4, planetC4, Vector2.add, Vector2.mult, Ship.mk.injEq, Vector2.mk.injEq]
    norm_num
  exact ⟨fun s dt planets => ⟨rfl, rfl⟩, by rw [hup], by rw [hup]⟩

/-- Claim C9: normalize of the zero vector is the zero vector, by the
explicit special case; for nonzero magnitude each component is divided by
the magnitude. -/
theorem claim9_normalize_zero :
    Vector2.normalize ⟨0, 0⟩ = ⟨0, 0⟩ ∧
    ∀ v : Vector2, v.mag ≠ 0 → v.normalize = ⟨v.x / v.mag, v.y / v.mag⟩ := by
  constructor
  · have h0 : Vector2.mag ⟨0, 0⟩ = 0 := by
      show Real.sqrt ((0 : ℝ) * 0 + 0 * 0) = 0
      rw [show ((0 : ℝ) * 0 + 0 * 0) = 0 by norm_num, Real.sqrt_zero]
    simp only [Vector2.normalize]
    rw [if_pos h0]
  · intro v hv
    simp only [Vector2.normalize]
    rw [if_neg hv]

/-- Witness for claim C9 at the vector (3,4), of magnitude 5. -/
theorem claim9_witness :
    Vector2.mag ⟨3, 4⟩ ≠ 0 ∧
      Vector2.normalize ⟨3, 4⟩ =
        ⟨3 / Vector2.mag ⟨3, 4⟩, 4 / Vector2.mag ⟨3, 4⟩⟩ := by
  have h5 : Vector2.mag ⟨3, 4⟩ = 5 := mag_eval 3 4 5 (by norm_num) (by norm_num)
  have hne : Vector2.mag (⟨3, 4⟩ : Vector2) ≠ 0 := by rw [h5]; norm_num
  exact ⟨hne, claim9_normalize_zero.2 ⟨3, 4⟩ hne⟩

/-- Claim C10: for every drag state and planet configuration the trajectory
preview runs exactly 100 steps and emits all 100 predicted positions; the
in-loop future-collision scan never shortens the emitted sequence. -/
theorem claim10_prediction_full_horizon (g : Game) :
    (drawTrajectoryPositions g).length = 100 ∧
    drawTrajectoryPositions g =
      (List.range 100).map (fun i =>
        ((predictStep g.planets 1)^[i + 1]
            ⟨g.ship.pos, (g.dragStart.sub g.dragCurrent).mult (0.1 * 3.0)⟩).simPos) := by
  have hd : drawTrajectoryPositions g =
      predictList g.planets 1
        ⟨g.ship.pos, (g.dragStart.sub g.dragCurrent).mult (0.1 * 3.0)⟩ 100 := rfl
  have h := predictList_eq_map g.planets 1
      ⟨g.ship.pos, (g.dragStart.sub g.dragCurrent).mult (0.1 * 3.0)⟩ 100
  constructor
  · rw [hd, h]
    simp
  · rw [hd, h]

/-- Counterexample to claim C2 as stated: with craft, goal and planet all
at (500,100) both the goal-reached and the planet-collision thresholds
hold, yet the reported outcome is the CRASHED collision loss, not
GOAL_REACHED, because the planet loop runs after the goal test and
overwrites it. -/
theorem claim2_counterexample :
    Vector2.dist g2x.ship.pos g2x.goal.pos < g2x.goal.radius + g2x.ship.radius ∧
    (∃ p ∈ g2x.planets,
        Vector2.dist g2x.ship.pos p.pos < p.radius + g2x.ship.radius) ∧
    (checkCollisions g2x).outcome ≠ Outcome.GOAL_REACHED ∧
    (checkCollisions g2x).outcome = Outcome.COLLISION := by
  have hd : Vector2.dist g2x.ship.pos g2x.goal.pos = 0 := by
    show Vector2.dist ⟨500, 100⟩ ⟨500, 100⟩ = 0
    exact dist_eval _ _ _ _ _ (by norm_num) (by norm_num)
  have hg : Vector2.dist g2x.ship.pos g2x.goal.pos <
      g2x.goal.radius + g2x.ship.radius := by
    rw [hd]
    show (0 : ℝ) < 30 + 8
    norm_num
  have hdp : Vector2.dist g2x.ship.pos p2x.pos = 0 := by
    show Vector2.dist ⟨500, 100⟩ ⟨500, 100⟩ = 0
    exact dist_eval _ _ _ _ _ (by norm_num) (by norm_num)
  have hp : ∃ p ∈ g2x.planets,
      Vector2.dist g2x.ship.pos p.pos < p.radius + g2x.ship.radius := by
    refine ⟨p2x, ?_, ?_⟩
    · show p2x ∈ [p2x]
      exact List.mem_singleton.mpr rfl
    · rw [hdp]
      show (0 : ℝ) < 40 + 8
      norm_num
  have hb : ¬ (g2x.ship.pos.x < 0 ∨ g2x.ship.pos.x > g2x.width ∨
      g2x.ship.pos.y < 0 ∨ g2x.ship.pos.y > g2x.height) := by
    show ¬ ((500 : ℝ) < 0 ∨ (500 : ℝ) > 800 ∨ (100 : ℝ) < 0 ∨ (100 : ℝ) > 600)
    norm_num
  have hout := checkCollisions_goal_and_hit g2x hg hp hb
  refine ⟨hg, hp, ?_, hout.1⟩
  rw [hout.1]
  exact fun hcon => Outcome.noConfusion hcon

/-- Claim C2 as amended: exactly one final outcome is reported per
evaluation, but when the goal-reached and a planet-collision threshold hold
simultaneously (craft in bounds) the reported outcome is COLLISION, not
GOAL_REACHED: the planet check runs after the goal check and overwrites
it. -/
theorem claim2_collision_overwrites_goal (g : Game)
    (hg : Vector2.dist g.ship.pos g.goal.pos < g.goal.radius + g.ship.radius)
    (hp : ∃ p ∈ g.planets, Vector2.dist g.ship.pos p.pos < p.radius + g.ship.radius)
    (hb : ¬ (g.ship.pos.x < 0 ∨ g.ship.pos.x > g.width ∨
             g.ship.pos.y < 0 ∨ g.ship.pos.y > g.height)) :
    (checkCollisions g).outcome = Outcome.COLLISION ∧
      (checkCollisions g).state = GameState.ENDED :=
  checkCollisions_goal_and_hit g hg hp hb

/-- Witness for the amended claim C2 at the concrete double-threshold
game. -/
theorem claim2_witness :
    (checkCollisions g2x).outcome = Outcome.COLLISION ∧
      (checkCollisions g2x).state = GameState.ENDED := by
  have hd : Vector2.dist g2x.ship.pos g2x.goal.pos = 0 := by
    show Vector2.dist ⟨500, 100⟩ ⟨500, 100⟩ = 0
    exact dist_eval _ _ _ _ _ (by norm_num) (by norm_num)
  have hg : Vector2.dist g2x.ship.pos g2x.goal.pos <
      g2x.goal.radius + g2x.ship.radius := by
    rw [hd]
    show (0 : ℝ) < 30 + 8
    norm_num
  have hdp : Vector2.dist g2x.ship.pos p2x.pos = 0 := by
    show Vector2.dist ⟨500, 100⟩ ⟨500, 100⟩ = 0
    exact dist_eval _ _ _ _ _ (by norm_num) (by norm_num)
  have hp : ∃ p ∈ g2x.planets,
      Vector2.dist g2x.ship.pos p.pos < p.radius + g2x.ship.radius := by
    refine ⟨p2x, ?_, ?_⟩
    · show p2x ∈ [p2x]
      exact List.mem_singleton.mpr rfl
    · rw [hdp]
      show (0 : ℝ) < 40 + 8
      norm_num
  have hb : ¬ (g2x.ship.pos.x < 0 ∨ g2x.ship.pos.x > g2x.width ∨
      g2x.ship.pos.y < 0 ∨ g2x.ship.pos.y > g2x.height) := by
    show ¬ ((500 : ℝ) < 0 ∨ (500 : ℝ) > 800 ∨ (100 : ℝ) < 0 ∨ (100 : ℝ) > 600)
    norm_num
  exact claim2_collision_overwrites_goal g2x hg hp hb

/-- Counterexample to claim C5 as stated: with craft radius 8 and goal
radius 30, a craft at distance 37 from the goal centre is already inside
the threshold 30 + 8 = 38, so the evaluator reports GOAL_REACHED, not
CONTINUE. -/
theorem claim5_counterexample :
    Vector2.dist g5a.ship.pos g5a.goal.pos = 37 ∧
      (checkCollisions g5a).outcome = Outcome.GOAL_REACHED := by
  have hd : Vector2.dist g5a.ship.pos g5a.goal.pos = 37 := by
    show Vector2.dist ⟨537, 100⟩ ⟨500, 100⟩ = 37
    exact dist_eval _ _ _ _ _ (by norm_num) (by norm_num)
  have hg : Vector2.dist g5a.ship.pos g5a.goal.pos <
      g5a.goal.radius + g5a.ship.radius := by
    rw [hd]
    show (37 : ℝ) < 30 + 8
    norm_num
  have hp : ∀ p ∈ g5a.planets,
      ¬ Vector2.dist g5a.ship.pos p.pos < p.radius + g5a.ship.radius :=
    fun p hp => absurd hp (List.not_mem_nil p)
  have hb : ¬ (g5a.ship.pos.x < 0 ∨ g5a.ship.pos.x > g5a.width ∨
      g5a.ship.pos.y < 0 ∨ g5a.ship.pos.y > g5a.height) := by
    show ¬ ((537 : ℝ) < 0 ∨ (537 : ℝ) > 800 ∨ (100 : ℝ) < 0 ∨ (100 : ℝ) > 600)
    norm_num
  exact ⟨hd, by rw [checkCollisions_goal_only g5a hg hp hb]; rfl⟩

/-- Claim C5 as amended: with craft radius 8 and a goal of radius 30 at
(500,100) the threshold is 30 + 8 = 38 (strict): distance 38 reports
CONTINUE (the call changes nothing), distances 37 and 36 report
GOAL_REACHED. -/
theorem claim5_goal_threshold :
    (Vector2.dist g5c.ship.pos g5c.goal.pos = 38 ∧ checkCollisions g5c = g5c) ∧
    (Vector2.dist g5a.ship.pos g5a.goal.pos = 37 ∧
      (checkCollisions g5a).outcome = Outcome.GOAL_REACHED) ∧
    (Vector2.dist g5b.ship.pos g5b.goal.pos = 36 ∧
      (checkCollisions g5b).outcome = Outcome.GOAL_REACHED) := by
  have hdc : Vector2.dist g5c.ship.pos g5c.goal.pos = 38 := by
    show Vector2.dist ⟨538, 100⟩ ⟨500, 100⟩ = 38
    exact dist_eval _ _ _ _ _ (by norm_num) (by norm_num)
  have hda : Vector2.dist g5a.ship.pos g5a.goal.pos = 37 := by
    show Vector2.dist ⟨537, 100⟩ ⟨500, 100⟩ = 37
    exact dist_eval _ _ _ _ _ (by norm_num) (by norm_num)
  have hdb : Vector2.dist g5b.ship.pos g5b.goal.pos = 36 := by
    show Vector2.dist ⟨536, 100⟩ ⟨500, 100⟩ = 36
    exact dist_eval _ _ _ _ _ (by norm_num) (by norm_num)
  refine ⟨⟨hdc, ?_⟩, ⟨hda, ?_⟩, ⟨hdb, ?_⟩⟩
  · refine checkCollisions_continue g5c ?_ ?_ ?_
    · rw [hdc]
      show ¬ (38 : ℝ) < 30 + 8
      norm_num
    · exact fun p hp => absurd hp (List.not_mem_nil p)
    · show ¬ ((538 : ℝ) < 0 ∨ (538 : ℝ) > 800 ∨ (100 : ℝ) < 0 ∨ (100 : ℝ) > 600)
      norm_num
  · rw [checkCollisions_goal_only g5a
      (by rw [hda]; show (37 : ℝ) < 30 + 8; norm_num)
      (fun p hp => absurd hp (List.not_mem_nil p))
      (by show ¬ ((537 : ℝ) < 0 ∨ (537 : ℝ) > 800 ∨ (100 : ℝ) < 0 ∨ (100 : ℝ) > 600)
          norm_num)]
    rfl
  · rw [checkCollisions_goal_only g5b
      (by rw [hdb]; show (36 : ℝ) < 30 + 8; norm_num)
      (fun p hp => absurd hp (List.not_mem_nil p))
      (by show ¬ ((536 : ℝ) < 0 ∨ (536 : ℝ) > 800 ∨ (100 : ℝ) < 0 ∨ (100 : ℝ) > 600)
          norm_num)]
    rfl

/-- Counterexample to claim C6 as stated: a configuration with negative
body radius, negative gravity and negative influence radius is accepted by
scene construction without any error: the malformed planet is installed
verbatim and the game is simply put into IDLE. -/
theorem claim6_counterexample :
    badPlanet.radius < 0 ∧ badPlanet.influenceRadius < 0 ∧
    (applyConfig gBase badConfig).planets = [badPlanet] ∧
    (applyConfig gBase badConfig).state = GameState.IDLE := by
  refine ⟨?_, ?_, rfl, rfl⟩
  · show (-1 : ℝ) < 0
    norm_num
  · show (-5 : ℝ) < 0
    norm_num

/-- Claim C6 as amended: scene construction performs no validation at all:
whenever the level table yields a configuration, initLevel installs it via
applyConfig, and applyConfig installs any configuration verbatim (state
IDLE, outcome cleared), including non-physical ones; no error is ever
surfaced. -/
theorem claim6_no_validation (g : Game) (config : LevelConfig) :
    (∀ n : Nat, levels n g.width g.height = some config →
        initLevel g n = applyConfig g config) ∧
    (applyConfig g config).planets = config.planets ∧
    (applyConfig g config).state = GameState.IDLE ∧
    (applyConfig g config).outcome = Outcome.CONTINUE ∧
    (applyConfig g config).ship.pos = config.ship ∧
    (applyConfig g config).goal.pos = config.goalPos ∧
    (applyConfig g config).goal.radius = config.goalR := by
  refine ⟨?_, rfl, rfl, rfl, rfl, rfl, rfl⟩
  intro n hn
  unfold initLevel
  rw [hn]

/-- Witness for the amended claim C6: the level-1 lookup at the 800 x 600
play area succeeds and initLevel installs exactly that configuration. -/
theorem claim6_witness :
    levels 1 gBase.width gBase.height = some cfg1 ∧
      initLevel gBase 1 = applyConfig gBase cfg1 := by
  have hl : levels 1 gBase.width gBase.height = some cfg1 := by
    show levels 1 800 600 = some cfg1
    simp only [levels, cfg1, Option.some.injEq, LevelConfig.mk.injEq,
      Vector2.mk.injEq, Planet.mk.injEq, List.cons.injEq]
    norm_num
  exact ⟨hl, (claim6_no_validation gBase cfg1).1 1 hl⟩

/-- Claim C7: the out-of-bounds check uses strict inequalities with margin
zero: when neither the goal nor a planet threshold holds, a craft inside or
exactly on the boundary of the play area leaves the game unchanged
(CONTINUE), while any position strictly outside it yields the
OUT_OF_BOUNDS loss. -/
theorem claim7_out_of_bounds_strict (g : Game)
    (hg : ¬ Vector2.dist g.ship.pos g.goal.pos < g.goal.radius + g.ship.radius)
    (hp : ∀ p ∈ g.planets, ¬ Vector2.dist g.ship.pos p.pos < p.radius + g.ship.radius) :
    (¬ (g.ship.pos.x < 0 ∨ g.ship.pos.x > g.width ∨
        g.ship.pos.y < 0 ∨ g.ship.pos.y > g.height) → checkCollisions g = g) ∧
    ((g.ship.pos.x < 0 ∨ g.ship.pos.x > g.width ∨
        g.ship.pos.y < 0 ∨ g.ship.pos.y > g.height) →
      (checkCollisions g).outcome = Outcome.OUT_OF_BOUNDS ∧
        (checkCollisions g).state = GameState.ENDED) := by
  constructor
  · exact fun hb => checkCollisions_continue g hg hp hb
  · intro hb
    rw [checkCollisions_oob g hg hp hb]
    exact ⟨rfl, rfl⟩

/-- Witness for claim C7: a craft exactly at x = width = 800 yields
CONTINUE, a craft at x = 800.001 yields OUT_OF_BOUNDS. -/
theorem claim7_witness :
    checkCollisions g7a = g7a ∧
    (checkCollisions g7b).outcome = Outcome.OUT_OF_BOUNDS ∧
    (checkCollisions g7b).state = GameState.ENDED := by
  have hda : Vector2.dist g7a.ship.pos g7a.goal.pos = 700 := by
    show Vector2.dist ⟨800, 300⟩ ⟨800, 1000⟩ = 700
    exact dist_eval _ _ _ _ _ (by norm_num) (by norm_num)
  have hga : ¬ Vector2.dist g7a.ship.pos g7a.goal.pos <
      g7a.goal.radius + g7a.ship.radius := by
    rw [hda]
    show ¬ (700 : ℝ) < 30 + 8
    norm_num
  have hpa : ∀ p ∈ g7a.planets,
      ¬ Vector2.dist g7a.ship.pos p.pos < p.radius + g7a.ship.radius :=
    fun p hp => absurd hp (List.not_mem_nil p)
  have hdb : Vector2.dist g7b.ship.pos g7b.goal.pos = 700 := by
    show Vector2.dist ⟨800.001, 300⟩ ⟨800.001, 1000⟩ = 700
    exact dist_eval _ _ _ _ _ (by norm_num) (by norm_num)
  have hgb : ¬ Vector2.dist g7b.ship.pos g7b.goal.pos <
      g7b.goal.radius + g7b.ship.radius := by
    rw [hdb]
    show ¬ (700 : ℝ) < 30 + 8
    norm_num
  have hpb : ∀ p ∈ g7b.planets,
      ¬ Vector2.dist g7b.ship.pos p.pos < p.radius + g7b.ship.radius :=
    fun p hp => absurd hp (List.not_mem_nil p)
  refine ⟨(claim7_out_of_bounds_strict g7a hga hpa).1 ?_,
    (claim7_out_of_bounds_strict g7b hgb hpb).2 ?_⟩
  · show ¬ ((800 : ℝ) < 0 ∨ (800 : ℝ) > 800 ∨ (300 : ℝ) < 0 ∨ (300 : ℝ) > 600)
    norm_num
  · show (800.001 : ℝ) < 0 ∨ (800.001 : ℝ) > 800 ∨ (300 : ℝ) < 0 ∨ (300 : ℝ) > 600
    refine Or.inr (Or.inl ?_)
    norm_num

/-- Claim C8: physics runs only while FLYING and a launch is only accepted
while IDLE: a tick in IDLE or ENDED leaves the craft state and the mission
state unchanged; mousedown outside IDLE is a no-op; mouseup without a drag
in progress is a no-op; and the drag-only-while-IDLE invariant is preserved
by every operation, so no launch can fire from ENDED or FLYING. -/
theorem claim8_state_machine_gating :
    (∀ (g : Game) (dt : ℝ), g.state = GameState.IDLE ∨ g.state = GameState.ENDED →
        (Game.update g dt).ship = g.ship ∧ (Game.update g dt).state = g.state) ∧
    (∀ (g : Game) (pos : Vector2), g.state ≠ GameState.IDLE → onMouseDown g pos = g) ∧
    (∀ g : Game, g.isDragging = false → onMouseUp g = g) ∧
    (∀ (g : Game) (pos : Vector2) (dt : ℝ), dragInv g →
        dragInv (Game.update g dt) ∧ dragInv (onMouseDown g pos) ∧
        dragInv (onMouseMove g pos) ∧ dragInv (onMouseUp g)) := by
  refine ⟨?_, ?_, ?_, ?_⟩
  · intro g dt h
    have hne : g.state ≠ GameState.FLYING := by
      rcases h with h | h <;> rw [h] <;> exact fun hcon => GameState.noConfusion hcon
    rw [update_not_flying g dt hne]
    exact ⟨rfl, rfl⟩
  · intro g pos h
    simp only [onMouseDown]
    rw [if_pos h]
  · intro g h
    simp only [onMouseUp]
    rw [if_pos h]
  · intro g pos dt hinv
    refine ⟨?_, ?_, ?_, ?_⟩
    · intro hne
      by_cases hI : g.state = GameState.IDLE
      · exfalso
        apply hne
        have hup : Game.update g dt = { g with frameCount := g.frameCount + 1 } :=
          update_not_flying g dt
            (by rw [hI]; exact fun hcon => GameState.noConfusion hcon)
        rw [hup]
        exact hI
      · rw [update_isDragging]
        exact hinv hI
    · intro hne
      by_cases hI : g.state = GameState.IDLE
      · exfalso
        apply hne
        simp only [onMouseDown]
        rw [if_neg (not_not.mpr hI)]
        exact hI
      · simp only [onMouseDown] at hne ⊢
        rw [if_pos hI] at hne ⊢
        exact hinv hI
    · by_cases hD : g.isDragging = false
      · intro hne
        simp only [onMouseMove] at hne ⊢
        rw [if_pos hD] at hne ⊢
        exact hinv hne
      · intro hne
        simp only [onMouseMove] at hne ⊢
        rw [if_neg hD] at hne ⊢
        exact hinv hne
    · by_cases hD : g.isDragging = false
      · intro hne
        simp only [onMouseUp] at hne ⊢
        rw [if_pos hD] at hne ⊢
        exact hinv hne
      · intro _hne
        simp only [onMouseUp]
        rw [if_neg hD]

/-- Witness for claim C8 at a concrete ENDED game with no drag in
progress. -/
theorem claim8_witness :
    (Game.update gW8 1).ship = gW8.ship ∧ (Game.update gW8 1).state = gW8.state ∧
    onMouseDown gW8 ⟨5, 5⟩ = gW8 ∧ onMouseUp gW8 = gW8 ∧
    dragInv (Game.update gW8 1) := by
  have hEnded : gW8.state = GameState.ENDED := rfl
  have hne : gW8.state ≠ GameState.IDLE := by
    rw [hEnded]
    exact fun hcon => GameState.noConfusion hcon
  have hdrag : gW8.isDragging = false := rfl
  have h1 := claim8_state_machine_gating.1 gW8 1 (Or.inr hEnded)
  have h2 := claim8_state_machine_gating.2.1 gW8 ⟨5, 5⟩ hne
  have h3 := claim8_state_machine_gating.2.2.1 gW8 hdrag
  have h4 := (claim8_state_machine_gating.2.2.2 gW8 ⟨0, 0⟩ 1 (fun _ => hdrag)).1
  exact ⟨h1.1, h1.2, h2, h3, h4⟩

end GravityFlyby
